import Mathlib

/-!
Verification of the secure-channel core of the OpenVPN repository
(branch snapshot with `src/ssl_backend.h`).  The repository ships only the
backend header under `src/`; the implementations of the anti-replay
sequencer (`packet_id.c`), the pre-shared channel wrapper (`tls_crypt.c`)
and the OpenSSL backend (`ssl_openssl.c`) are declared or referenced there
but their bodies are absent, so those operations are modelled from the
specification (`spec.md`) and from the contracts documented in
`src/ssl_backend.h`, as noted on each definition.
-/

set_option maxRecDepth 4000

/-! ## Anti-Replay Sequencer (spec §4.2) -/

/-- Verdicts of the replay test, spec §4.2: `Accepted | Duplicate | TooOld | Stale`. -/
inductive Verdict where
  | Accepted
  | Duplicate
  | TooOld
  | Stale
  deriving DecidableEq, Repr

/-- Modelled from the spec: the receive-side replay window of `packet_id.c`
(absent from `src/`).  `base_id` is the lowest id the window still tracks,
`width` the fixed window width, and `bits` the bitmask in which bit `j`
records whether id `base_id + j` has been seen (spec §3 "Replay Window",
§9 "ring of bits"). -/
structure ReplayWindow where
  width : Nat
  base_id : Nat
  bits : Nat
  deriving DecidableEq, Repr

/-- A fresh window: default `base_id` 0, no ids seen (spec §4.2 edge cases). -/
def ReplayWindow.fresh (w : Nat) : ReplayWindow :=
  { width := w, base_id := 0, bits := 0 }

/-- Modelled from the spec: `check_and_record` of `packet_id.c` (absent from
`src/`), spec §4.2.  The window covers `[base_id, base_id + width)`; an id
below `base_id` is outside the window and rejected `TooOld` regardless of
bit state (this is the reading forced by the spec's own scenario in §8:
after the window slides to base 2 with width 8, id 1 is `TooOld`); an id
inside the window with its bit already set is a `Duplicate`; an id at or
beyond `base_id + width` slides the window so that the new base is
`received_id - width + 1`, discarding bits that fall out of range, and is
accepted; otherwise the id is accepted and its bit marked. -/
def check_and_record (st : ReplayWindow) (received_id : Nat) : Verdict × ReplayWindow :=
  if received_id < st.base_id then
    (.TooOld, st)
  else if received_id < st.base_id + st.width then
    if st.bits.testBit (received_id - st.base_id) then
      (.Duplicate, st)
    else
      (.Accepted, { st with bits := st.bits ||| (1 <<< (received_id - st.base_id)) })
  else
    let newBase := received_id - st.width + 1
    (.Accepted,
      { st with
        base_id := newBase
        bits := (st.bits >>> (newBase - st.base_id)) ||| (1 <<< (received_id - newBase)) })

/-- Run `check_and_record` over a list of ids, collecting the verdicts. -/
def check_and_record_seq (st : ReplayWindow) : List Nat → List Verdict × ReplayWindow
  | [] => ([], st)
  | id :: rest =>
    let (v, st') := check_and_record st id
    let (vs, st'') := check_and_record_seq st' rest
    (v :: vs, st'')

/-! ## Outbound packet-identifier counter (spec §4.2 `next_send_id`) -/

/-- Errors of the wrapper/sequencer runtime taxonomy (spec §7). -/
inductive WrapError where
  | IdentifierExhausted
  deriving DecidableEq, Repr

/-- Modelled from the spec: the send side of the sequencer (`packet_id.c`,
absent from `src/`): a single outbound counter, `counter` being the next
identifier to assign.  The first packet id assigned on a fresh sequencer is
0 (spec §8 scenario). -/
structure SendState where
  counter : Nat
  deriving DecidableEq, Repr

/-- A fresh send-side sequencer. -/
def SendState.fresh : SendState := { counter := 0 }

/-- Modelled from the spec: `next_send_id` (spec §4.2).  Returns the next
outbound identifier and increments the internal counter; fails with
`IdentifierExhausted` when the 32-bit id space is exhausted (the counter
would wrap), never silently wrapping around. -/
def next_send_id (st : SendState) : Except WrapError (Nat × SendState) :=
  if st.counter < 2 ^ 32 then
    .ok (st.counter, { counter := st.counter + 1 })
  else
    .error .IdentifierExhausted

/-! ## Pre-Shared Channel Wrapper (spec §4.3, `tls_crypt.c` absent from `src/`) -/

/-- Modelled from the spec: the per-direction wrap key material of
`tls_crypt.c` (absent from `src/`): one cipher key and one HMAC key
(spec §3 "Wrap Key Material"); keys are already derived, derivation is out
of scope (spec §4.3). -/
structure WrapKeys where
  cipherKey : Nat
  hmacKey : Nat
  deriving DecidableEq, Repr

/-- Modelled from the spec: one byte of the deterministic keystream of the
outbound cipher; the nonce is derived deterministically from the packet
identifier, no random IV (spec §4.3 `wrap`).  The cryptographic PRF itself
is supplied by a vetted library (spec §2) and is modelled here by a concrete
byte-valued function of key, packet id and stream position. -/
def keystream (ck pid i : Nat) : Nat :=
  (ck + 131 * pid + 17 * i + i * i) % 256

/-- Counter-mode bytewise encryption/decryption (its own inverse): byte `i`
of the data is XORed with keystream byte `i` derived from the packet id. -/
def ctr_crypt (ck pid : Nat) : Nat → List Nat → List Nat
  | _, [] => []
  | i, b :: bs => (b ^^^ keystream ck pid i) :: ctr_crypt ck pid (i + 1) bs

/-- Big-endian 4-byte encoding of the 32-bit packet identifier
(spec §6 wire frame: 4-byte packet identifier, byte order fixed). -/
def encode_pid (pid : Nat) : List Nat :=
  [pid / 2 ^ 24 % 256, pid / 2 ^ 16 % 256, pid / 2 ^ 8 % 256, pid % 256]

/-- Modelled from the spec: the authentication tag, an HMAC over the frame
header and the ciphertext keyed by the HMAC key (spec §4.3 `unwrap`
recomputes the tag from session id, packet id and ciphertext).  The vetted
HMAC primitive (spec §2) is modelled by a concrete byte-valued compression
of the key and message bytes. -/
def hmac_tag (hk : Nat) (header body : List Nat) : Nat :=
  (hk + header.sum + body.sum) % 256

/-- Modelled from the spec: the wire frame of the wrapper, fixed-position
fields — opcode/key-id byte, 8-byte session identifier, packet identifier,
authentication tag, variable-length ciphertext (spec §3 "Wrapped Packet",
§6 wire frame). -/
structure Frame where
  opcode : Nat
  session_id : List Nat
  packet_id : Nat
  tag : Nat
  ciphertext : List Nat
  deriving DecidableEq, Repr

/-- The frame header bytes the tag is computed over: opcode/key-id, session
id and packet id (spec §4.3). -/
def frame_header (opcode : Nat) (sess : List Nat) (pid : Nat) : List Nat :=
  opcode :: sess ++ encode_pid pid

/-- Modelled from the spec: `wrap` of `tls_crypt.c` (absent from `src/`),
spec §4.3: obtain the next packet identifier from the sequencer's send
side, encrypt the plaintext with the outbound cipher key under a nonce
derived from the packet identifier, authenticate header and ciphertext
with the outbound HMAC key, and emit the wire frame.  The tag is computed
over the ciphertext so that `unwrap` can recompute it from session id,
packet id and ciphertext and verify it before any decryption, as spec §4.3
`unwrap` requires. -/
def wrap (keys : WrapKeys) (opcode : Nat) (sess : List Nat) (st : SendState)
    (plaintext : List Nat) : Except WrapError (Frame × Nat × SendState) :=
  match next_send_id st with
  | .error e => .error e
  | .ok (pid, st') =>
    let ct := ctr_crypt keys.cipherKey pid 0 plaintext
    let tag := hmac_tag keys.hmacKey (frame_header opcode sess pid) ct
    .ok ({ opcode := opcode, session_id := sess, packet_id := pid, tag := tag,
           ciphertext := ct }, pid, st')

/-- Outcome of `unwrap`: a decrypted plaintext with its packet id, a frame
silently dropped on a replay verdict (not a protocol error, spec §4.3), or
an authentication failure. -/
inductive UnwrapResult where
  | ok (plaintext : List Nat) (pid : Nat)
  | dropped (v : Verdict)
  | authFailed
  deriving DecidableEq, Repr

/-- Modelled from the spec: `unwrap` of `tls_crypt.c` (absent from `src/`),
spec §4.3: parse the frame, recompute the expected tag from the claimed
session id, packet id and ciphertext using the inbound HMAC key, and reject
with `AuthenticationFailed` on mismatch before attempting decryption
(verify-then-decrypt).  Only after authentication succeeds is the payload
decrypted and the packet id submitted to the anti-replay sequencer; a
replay verdict drops the frame silently, yielding no plaintext. -/
def unwrap (keys : WrapKeys) (win : ReplayWindow) (f : Frame) :
    UnwrapResult × ReplayWindow :=
  let expected := hmac_tag keys.hmacKey (frame_header f.opcode f.session_id f.packet_id)
      f.ciphertext
  if f.tag = expected then
    let pt := ctr_crypt keys.cipherKey f.packet_id 0 f.ciphertext
    match check_and_record win f.packet_id with
    | (.Accepted, win') => (.ok pt f.packet_id, win')
    | (v, win') => (.dropped v, win')
  else
    (.authFailed, win)

/-- A frame with bit `j` of ciphertext byte `i` flipped. -/
def flip_ct_bit (f : Frame) (i j : Nat) : Frame :=
  { f with ciphertext := f.ciphertext.set i ((f.ciphertext.getD i 0) ^^^ 2 ^ j) }

/-- A frame with bit `j` of the authentication tag flipped. -/
def flip_tag_bit (f : Frame) (j : Nat) : Frame :=
  { f with tag := f.tag ^^^ 2 ^ j }

/-! ## Credential & Context Abstraction (spec §4.1, `src/ssl_backend.h`) -/

/-- The distinguishable sub-cases of a private-key load failure
(spec §4.1 `load_private_key`): a generic parse/decode failure, or the
password-prompt-needed case for an encrypted key whose passphrase was
wrong or missing. -/
inductive KeyLoadSub where
  | parseFailure
  | passwordPromptNeeded
  deriving DecidableEq, Repr

/-- Credential/configuration error taxonomy (spec §7). -/
inductive LoadError where
  | BackendInitError
  | ParameterLoadError
  | CertificateParseError
  | KeyLoadError (sub : KeyLoadSub)
  | Pkcs12ParseError
  | ExternalKeyBindError
  deriving DecidableEq, Repr

/-- A parsed certificate: the payload lines of one PEM block. -/
structure Cert where
  body : List String
  deriving DecidableEq, Repr

/-- Modelled from the spec: the backend TLS context (`struct tls_root_ctx`,
whose backend definition is absent from `src/`): role, loaded certificate
chain, loaded private key, DH parameters, and initialisation state
(spec §3 "TLS Context").  Per the invariant there, a context is either
uninitialized or initialised by a successful credential load; failed loads
leave it untouched. -/
structure TlsRootCtx where
  roleServer : Bool
  certChain : List Cert
  privKeyLoaded : Bool
  dhParams : Option (List String)
  initialised : Bool
  deriving DecidableEq, Repr

/-- `tls_ctx_server_new` / `tls_ctx_client_new` (`src/ssl_backend.h:83,90`):
allocate an uninitialised context for the given role. -/
def tls_ctx_new (isServer : Bool) : TlsRootCtx :=
  { roleServer := isServer, certChain := [], privKeyLoaded := false,
    dhParams := none, initialised := false }

/-- `tls_ctx_initialised` (`src/ssl_backend.h:106`): pure query whether the
context is initialised. -/
def tls_ctx_initialised (ctx : TlsRootCtx) : Bool :=
  ctx.initialised

/-- PEM block parser (fuel-indexed over the remaining line count): splits
the source lines into the payloads of consecutive `BEGIN l`/`END l` blocks
for marker label `l`, failing on any deviation from the PEM syntax. -/
def parse_pem_blocks (lbl : String) : Nat → List String → Option (List (List String))
  | _, [] => some []
  | 0, _ :: _ => none
  | fuel + 1, l :: rest =>
    if l = "-----BEGIN " ++ lbl ++ "-----" then
      let body := rest.takeWhile (fun s => s ≠ "-----END " ++ lbl ++ "-----")
      match rest.dropWhile (fun s => s ≠ "-----END " ++ lbl ++ "-----") with
      | [] => none
      | _ :: after =>
        match parse_pem_blocks lbl fuel after with
        | none => none
        | some bs => some (body :: bs)
    else none

/-- Modelled from the spec: the PEM certificate(-chain) parser of the
backend (`ssl_openssl.c`, absent from `src/`): the source must consist of
one or more `CERTIFICATE` blocks in file order; anything else is
syntactically invalid (spec §4.1 `load_certificate_chain`). -/
def parse_pem_certs (source : List String) : Option (List Cert) :=
  match parse_pem_blocks "CERTIFICATE" source.length source with
  | none => none
  | some [] => none
  | some bs => some (bs.map Cert.mk)

/-- Modelled from the spec and the contract documented at
`src/ssl_backend.h:175-193`: `tls_ctx_load_cert_file` loads the leaf
certificate and any chain certificates from PEM, in file order, failing
with `CertificateParseError` on a syntactically invalid source and leaving
the context untouched.  The `x509` argument models the optional out
parameter: `none` is a NULL pointer (no handle is returned), `some v` a
non-NULL pointer whose current value is `v` and which the contract requires
to be NULL (`some none`); on success it is filled with the loaded leaf
certificate. -/
def tls_ctx_load_cert_file (ctx : TlsRootCtx) (source : List String)
    (x509 : Option (Option Cert)) :
    Except LoadError Unit × TlsRootCtx × Option (Option Cert) :=
  match parse_pem_certs source with
  | none => (.error .CertificateParseError, ctx, x509)
  | some certs =>
    (.ok (), { ctx with certChain := certs, initialised := true },
     match x509 with
     | none => none
     | some _ => some (certs.head?))

/-- Modelled from the spec: a private-key source as the key loader sees it
(`ssl_openssl.c` absent from `src/`): whether the key material decodes,
whether it is encrypted, and whether the passphrase supplied by the
password callback (`pem_password_callback`, `src/ssl_backend.h:55`) is
correct. -/
structure KeySource where
  wellFormed : Bool
  encrypted : Bool
  passwordOk : Bool
  deriving DecidableEq, Repr

/-- Modelled from the spec and `src/ssl_backend.h:195-210`:
`tls_ctx_load_priv_file` loads a private key, signalling `KeyLoadError`
with a distinguishable password-prompt-needed sub-case rather than a bare
boolean (spec §4.1 `load_private_key`).  The returned flag records whether
the password callback was invoked: it is consulted lazily, only when the
key is encrypted.  Failed loads leave the context untouched. -/
def tls_ctx_load_priv_file (ctx : TlsRootCtx) (src : KeySource) :
    Except LoadError Unit × TlsRootCtx × Bool :=
  if src.encrypted then
    if !src.passwordOk then
      (.error (.KeyLoadError .passwordPromptNeeded), ctx, true)
    else if !src.wellFormed then
      (.error (.KeyLoadError .parseFailure), ctx, true)
    else
      (.ok (), { ctx with privKeyLoaded := true, initialised := true }, true)
  else
    if !src.wellFormed then
      (.error (.KeyLoadError .parseFailure), ctx, false)
    else
      (.ok (), { ctx with privKeyLoaded := true, initialised := true }, false)

/-- Modelled from the spec: the DH-parameter PEM parser of the backend
(`ssl_openssl.c`, absent from `src/`): exactly one `DH PARAMETERS` block
(spec §4.1 `load_dh_params`). -/
def parse_pem_dh (source : List String) : Option (List String) :=
  match parse_pem_blocks "DH PARAMETERS" source.length source with
  | some [params] => some params
  | _ => none

/-- Modelled from the spec and `src/ssl_backend.h:119-132`:
`tls_ctx_load_dh_params` loads Diffie-Hellman parameters into the context,
failing with `ParameterLoadError` on malformed input — the failure is the
returned result, surfaced to the caller, never a silent no-op
(spec §4.1 `load_dh_params`). -/
def tls_ctx_load_dh_params (ctx : TlsRootCtx) (source : List String) :
    Except LoadError Unit × TlsRootCtx :=
  match parse_pem_dh source with
  | none => (.error .ParameterLoadError, ctx)
  | some params => (.ok (), { ctx with dhParams := some params, initialised := true })

/-! ## Theorems -/

/-- C3: with window width 8 and base_id 0, feeding ids `[0,1,2,1,9]` to
`check_and_record` yields verdicts `[Accepted, Accepted, Accepted,
Duplicate, Accepted]`; after accepting id 9 the window base equals 2, so a
subsequent `check_and_record` of id 1 returns `TooOld`. -/
theorem c3_window_scenario :
    (check_and_record_seq (ReplayWindow.fresh 8) [0, 1, 2, 1, 9]).1 =
      [.Accepted, .Accepted, .Accepted, .Duplicate, .Accepted] ∧
    (check_and_record_seq (ReplayWindow.fresh 8) [0, 1, 2, 1, 9]).2.base_id = 2 ∧
    (check_and_record (check_and_record_seq (ReplayWindow.fresh 8) [0, 1, 2, 1, 9]).2 1).1 =
      .TooOld := by
  decide

/-- C4: accepting id `base_id + width + k` (k ≥ 0) is always `Accepted`,
advances `base_id` by `k + 1`, and afterwards every id below the new
`base_id - width` returns `TooOld`, even if never previously seen. -/
theorem c4_window_slide (st : ReplayWindow) (k : Nat) :
    (check_and_record st (st.base_id + st.width + k)).1 = .Accepted ∧
    (check_and_record st (st.base_id + st.width + k)).2.base_id = st.base_id + k + 1 ∧
    ∀ id2, id2 + st.width < st.base_id + k + 1 →
      (check_and_record (check_and_record st (st.base_id + st.width + k)).2 id2).1 =
        .TooOld := by
  have h1 : ¬ st.base_id + st.width + k < st.base_id := by omega
  have h2 : ¬ st.base_id + st.width + k < st.base_id + st.width := by omega
  have hb : st.base_id + st.width + k - st.width + 1 = st.base_id + k + 1 := by omega
  refine ⟨?_, ?_, ?_⟩
  · simp [check_and_record, h1, h2]
  · simp [check_and_record, h1, h2, hb]
  · intro id2 hid2
    have h3 : id2 < st.base_id + k + 1 := by omega
    simp [check_and_record, h1, h2, hb, h3]

/-- Witness for C4 at width 8, base 20, k = 1: id 29 is accepted, the base
advances to 22, and id 13 (below 22 - 8) is then `TooOld`. -/
theorem c4_window_slide_witness :
    (check_and_record ⟨8, 20, 0⟩ 29).1 = .Accepted ∧
    (check_and_record ⟨8, 20, 0⟩ 29).2.base_id = 22 ∧
    (check_and_record (check_and_record ⟨8, 20, 0⟩ 29).2 13).1 = .TooOld :=
  ⟨(c4_window_slide ⟨8, 20, 0⟩ 1).1, (c4_window_slide ⟨8, 20, 0⟩ 1).2.1,
   (c4_window_slide ⟨8, 20, 0⟩ 1).2.2 13 (by decide)⟩

/-- C6: `next_send_id` returns the next outbound identifier and increments
the internal counter, fails with `IdentifierExhausted` exactly when the
32-bit counter would wrap, and after exhaustion never returns an identifier
(so no wrapped-around, reused id is ever handed out): every returned id is
below `2 ^ 32`, consecutive successful calls return strictly increasing
ids, and in the exhausted state every call keeps failing. -/
theorem c6_next_send_id (st : SendState) :
    (st.counter < 2 ^ 32 →
      next_send_id st = .ok (st.counter, { counter := st.counter + 1 })) ∧
    (2 ^ 32 ≤ st.counter → next_send_id st = .error .IdentifierExhausted) ∧
    (∀ i st', next_send_id st = .ok (i, st') →
      i = st.counter ∧ i < 2 ^ 32 ∧ st'.counter = i + 1 ∧
      ∀ i2 st'', next_send_id st' = .ok (i2, st'') → i < i2) := by
  refine ⟨fun h => by rw [next_send_id, if_pos h],
    fun h => by rw [next_send_id, if_neg (Nat.not_lt.mpr h)],
    fun i st' hok => ?_⟩
  rw [next_send_id] at hok
  by_cases h : st.counter < 2 ^ 32
  · rw [if_pos h] at hok
    cases hok
    refine ⟨rfl, h, rfl, fun i2 st'' hok2 => ?_⟩
    rw [next_send_id] at hok2
    by_cases h2 : st.counter + 1 < 2 ^ 32
    · rw [if_pos h2] at hok2
      cases hok2
      exact Nat.lt_succ_self _
    · rw [if_neg h2] at hok2
      exact Except.noConfusion hok2
  · rw [if_neg h] at hok
    exact Except.noConfusion hok

/-- Witness for C6 at counter 5: the call returns id 5 and advances the
counter to 6. -/
theorem c6_next_send_id_witness :
    next_send_id { counter := 5 } = .ok (5, { counter := 6 }) :=
  (c6_next_send_id { counter := 5 }).1 (by decide)

/-- The counter-mode transform is its own inverse: applying it twice from
the same stream position restores the data. -/
theorem ctr_crypt_involutive (ck pid : Nat) :
    ∀ (i : Nat) (bs : List Nat), ctr_crypt ck pid i (ctr_crypt ck pid i bs) = bs := by
  intro i bs
  induction bs generalizing i with
  | nil => rfl
  | cons b rest ih => simp [ctr_crypt, Nat.xor_cancel_right, ih]

/-- The counter-mode transform preserves length. -/
theorem ctr_crypt_length (ck pid : Nat) :
    ∀ (i : Nat) (bs : List Nat), (ctr_crypt ck pid i bs).length = bs.length := by
  intro i bs
  induction bs generalizing i with
  | nil => rfl
  | cons b rest ih => simp [ctr_crypt, ih]

/-- On a fresh window the first packet is always accepted, whatever its id
(spec §4.2 edge cases). -/
theorem fresh_first_accepted (w id : Nat) :
    (check_and_record (ReplayWindow.fresh w) id).1 = .Accepted := by
  rw [check_and_record]
  simp only [ReplayWindow.fresh]
  rw [if_neg (by omega)]
  by_cases h : id < 0 + w
  · rw [if_pos h]
    simp [Nat.zero_testBit]
  · rw [if_neg h]

/-- After a fresh window accepts id `pid` (width at least 1), submitting
`pid` again yields `Duplicate`. -/
theorem fresh_accept_then_duplicate (w pid : Nat) (hw : 0 < w) :
    (check_and_record (check_and_record (ReplayWindow.fresh w) pid).2 pid).1 =
      .Duplicate := by
  by_cases h : pid < w
  · have hbit : (1 <<< pid).testBit pid = true := by
      simp [Nat.shiftLeft_eq, Nat.testBit_two_pow_self]
    simp [check_and_record, ReplayWindow.fresh, h, Nat.zero_testBit, hbit]
  · have hb1 : ¬ pid < pid - w + 1 := by omega
    have hb2 : pid < pid - w + 1 + w := by omega
    have hbit : (1 <<< (pid - (pid - w + 1))).testBit (pid - (pid - w + 1)) = true := by
      simp [Nat.shiftLeft_eq, Nat.testBit_two_pow_self]
    simp [check_and_record, ReplayWindow.fresh, h, hb1, hb2, Nat.zero_shiftRight, hbit]

/-- An authentic frame produced by `wrap` passes `unwrap`'s tag check, and
`unwrap` then behaves according to the replay verdict on its packet id:
the plaintext is reproduced when the id is accepted, otherwise the frame is
dropped with that verdict. -/
theorem unwrap_wrap_eq (keys : WrapKeys) (opc : Nat) (sess : List Nat) (st : SendState)
    (P : List Nat) (win : ReplayWindow) (f : Frame) (pid : Nat) (st' : SendState)
    (hc : st.counter < 2 ^ 32) (h : wrap keys opc sess st P = .ok (f, pid, st')) :
    pid = st.counter ∧
    unwrap keys win f =
      (match check_and_record win pid with
       | (.Accepted, win2) => (.ok P pid, win2)
       | (v, win2) => (.dropped v, win2)) := by
  simp only [wrap, next_send_id, if_pos hc] at h
  rw [Except.ok.injEq, Prod.mk.injEq, Prod.mk.injEq] at h
  obtain ⟨hf, hpid, hst⟩ := h
  subst hpid
  subst hf
  refine ⟨rfl, ?_⟩
  simp [unwrap, ctr_crypt_involutive]

/-- C1: for every plaintext and matching wrap key material, unwrapping on
a fresh receive window the frame produced by `wrap` reproduces the
plaintext exactly, the packet identifier consumed by `unwrap` equals the
one assigned by `wrap` (the sender counter), and on a fresh sequencer that
first assigned id is 0; in particular a 64-byte plaintext round-trips
byte-for-byte (see the witness). -/
theorem c1_roundtrip (keys : WrapKeys) (opc : Nat) (sess : List Nat) (st : SendState)
    (P : List Nat) (w : Nat) (h : st.counter < 2 ^ 32) :
    ∀ f pid st', wrap keys opc sess st P = .ok (f, pid, st') →
      pid = st.counter ∧
      (unwrap keys (ReplayWindow.fresh w) f).1 = .ok P pid ∧
      SendState.fresh.counter = 0 := by
  intro f pid st' hwr
  obtain ⟨hpid, hu⟩ := unwrap_wrap_eq keys opc sess st P (ReplayWindow.fresh w) f pid st' h hwr
  refine ⟨hpid, ?_, rfl⟩
  rw [hu]
  rcases hr : check_and_record (ReplayWindow.fresh w) pid with ⟨v, win2⟩
  have hv : v = .Accepted := by
    have hacc := fresh_first_accepted w pid
    rw [hr] at hacc
    exact hacc
  subst hv
  rfl

/-- Witness for C1: a fixed key pair, a fresh sequencer and the 64-byte
plaintext of sevens; the reported packet id is 0 and the 64 bytes are
reproduced exactly. -/
theorem c1_roundtrip_witness :
    (0 : Nat) = SendState.fresh.counter ∧
    (unwrap ⟨3, 5⟩ (ReplayWindow.fresh 128)
        ⟨0, [0, 0, 0, 0, 0, 0, 0, 0], 0, 197,
         [4, 18, 46, 56, 80, 118, 138, 172, 204, 234, 22, 48, 88, 142, 178, 228,
          20, 66, 126, 168, 224, 38, 90, 156, 220, 26, 102, 160, 232, 62, 130, 212,
          36, 114, 206, 24, 112, 214, 42, 140, 236, 74, 182, 16, 120, 238, 82, 196,
          52, 162, 30, 136, 0, 134, 250, 124, 252, 122, 6, 128, 8, 158, 34, 180]⟩).1 =
      .ok (List.replicate 64 7) 0 ∧
    SendState.fresh.counter = 0 :=
  c1_roundtrip ⟨3, 5⟩ 0 (List.replicate 8 0) SendState.fresh (List.replicate 64 7) 128
    (by decide)
    ⟨0, [0, 0, 0, 0, 0, 0, 0, 0], 0, 197,
     [4, 18, 46, 56, 80, 118, 138, 172, 204, 234, 22, 48, 88, 142, 178, 228,
      20, 66, 126, 168, 224, 38, 90, 156, 220, 26, 102, 160, 232, 62, 130, 212,
      36, 114, 206, 24, 112, 214, 42, 140, 236, 74, 182, 16, 120, 238, 82, 196,
      52, 162, 30, 136, 0, 134, 250, 124, 252, 122, 6, 128, 8, 158, 34, 180]⟩
    0 { counter := 1 } rfl

/-- C5: feeding the same wrapped frame to `unwrap` twice on a fresh receive
window yields `Accepted` (with the plaintext) the first time and a silent
`Duplicate` drop the second time; the second call surfaces no plaintext and
no protocol error — its outcome is the `dropped` verdict. -/
theorem c5_replay (keys : WrapKeys) (opc : Nat) (sess : List Nat) (st : SendState)
    (P : List Nat) (w : Nat) (h : st.counter < 2 ^ 32) (hw : 0 < w) :
    ∀ f pid st', wrap keys opc sess st P = .ok (f, pid, st') →
      (unwrap keys (ReplayWindow.fresh w) f).1 = .ok P pid ∧
      (unwrap keys (unwrap keys (ReplayWindow.fresh w) f).2 f).1 = .dropped .Duplicate ∧
      ∀ pt2 pid2,
        (unwrap keys (unwrap keys (ReplayWindow.fresh w) f).2 f).1 ≠ .ok pt2 pid2 := by
  intro f pid st' hwr
  obtain ⟨hpid, hu⟩ := unwrap_wrap_eq keys opc sess st P (ReplayWindow.fresh w) f pid st' h hwr
  subst hpid
  rcases hr1 : check_and_record (ReplayWindow.fresh w) st.counter with ⟨v1, win1⟩
  have hv1 : v1 = .Accepted := by
    have hacc := fresh_first_accepted w st.counter
    rw [hr1] at hacc
    exact hacc
  subst hv1
  have hwin : (unwrap keys (ReplayWindow.fresh w) f).2 = win1 := by
    rw [hu, hr1]
  obtain ⟨_, hu2⟩ := unwrap_wrap_eq keys opc sess st P win1 f st.counter st' h hwr
  have hdup : (check_and_record win1 st.counter).1 = .Duplicate := by
    have hd := fresh_accept_then_duplicate w st.counter hw
    rw [hr1] at hd
    exact hd
  rcases hr2 : check_and_record win1 st.counter with ⟨v2, win2⟩
  have hv2 : v2 = .Duplicate := by
    rw [hr2] at hdup
    exact hdup
  subst hv2
  refine ⟨?_, ?_, ?_⟩
  · rw [hu, hr1]
  · rw [hwin, hu2, hr2]
  · rw [hwin, hu2, hr2]
    intro pt2 pid2
    simp

/-- Witness for C5: a concrete frame wrapping `[10, 20, 30]` is accepted
once on a fresh window of width 16 and then dropped as a duplicate. -/
theorem c5_replay_witness :
    (unwrap ⟨3, 5⟩ (ReplayWindow.fresh 16) ⟨0, [0, 0, 0, 0, 0, 0, 0, 0], 0, 70, [9, 1, 55]⟩).1 =
      .ok [10, 20, 30] 0 ∧
    (unwrap ⟨3, 5⟩
        (unwrap ⟨3, 5⟩ (ReplayWindow.fresh 16) ⟨0, [0, 0, 0, 0, 0, 0, 0, 0], 0, 70, [9, 1, 55]⟩).2
        ⟨0, [0, 0, 0, 0, 0, 0, 0, 0], 0, 70, [9, 1, 55]⟩).1 = .dropped .Duplicate :=
  have h := c5_replay ⟨3, 5⟩ 0 (List.replicate 8 0) SendState.fresh [10, 20, 30] 16
    (by decide) (by decide) ⟨0, [0, 0, 0, 0, 0, 0, 0, 0], 0, 70, [9, 1, 55]⟩ 0
    { counter := 1 } rfl
  ⟨h.1, h.2.1⟩

/-- XORing in a power of two always changes a natural number. -/
theorem xor_pow_ne (x j : Nat) : x ^^^ 2 ^ j ≠ x := by
  intro heq
  have h4 : 2 ^ j = 0 := by
    calc 2 ^ j = x ^^^ (x ^^^ 2 ^ j) := by
          rw [← Nat.xor_assoc, Nat.xor_self, Nat.zero_xor]
    _ = x ^^^ x := by rw [heq]
    _ = 0 := Nat.xor_self x
  exact absurd h4 (Nat.pos_iff_ne_zero.mp (Nat.two_pow_pos j))

/-- Replacing one element of a byte list changes its sum by the difference
of the old and new bytes. -/
theorem sum_set_getD (l : List Nat) :
    ∀ i v, i < l.length → (l.set i v).sum + l.getD i 0 = l.sum + v := by
  induction l with
  | nil => intro i v hi; simp at hi
  | cons b rest ih =>
    intro i v hi
    cases i with
    | zero => simp [List.sum_cons]; omega
    | succ i =>
      simp only [List.set, List.sum_cons, List.getD_cons_succ]
      have := ih i v (by simpa using hi)
      omega

/-- The counter-mode transform of valid bytes yields valid bytes. -/
theorem ctr_crypt_bytes_lt (ck pid : Nat) :
    ∀ (i : Nat) (bs : List Nat), (∀ b ∈ bs, b < 256) →
      ∀ c ∈ ctr_crypt ck pid i bs, c < 256 := by
  intro i bs
  induction bs generalizing i with
  | nil => intro _ c hc; simp [ctr_crypt] at hc
  | cons b rest ih =>
    intro hb c hc
    rw [ctr_crypt] at hc
    rcases List.mem_cons.mp hc with h | h
    · subst h
      have h1 : b < 2 ^ 8 := hb b (List.mem_cons_self b rest)
      have h2 : keystream ck pid i < 2 ^ 8 :=
        Nat.mod_lt _ (by norm_num)
      exact Nat.xor_lt_two_pow h1 h2
    · exact ih (i + 1) (fun x hx => hb x (List.mem_cons_of_mem b hx)) c h

/-- Flipping any single bit of any ciphertext byte changes the computed
authentication tag: the modelled HMAC separates single-bit modifications of
valid byte strings. -/
theorem hmac_tag_flip_ne (hk : Nat) (H ct : List Nat) (i j : Nat)
    (hct : ∀ b ∈ ct, b < 256) (hi : i < ct.length) (hj : j < 8) :
    hmac_tag hk H (ct.set i ((ct.getD i 0) ^^^ 2 ^ j)) ≠ hmac_tag hk H ct := by
  have hx : ct.getD i 0 < 256 := by
    rw [List.getD_eq_getElem ct 0 hi]
    exact hct _ (List.getElem_mem hi)
  have hy : ct.getD i 0 ^^^ 2 ^ j < 256 := by
    have h2 : (2 : Nat) ^ j < 2 ^ 8 := Nat.pow_lt_pow_right (by norm_num) hj
    exact Nat.xor_lt_two_pow hx h2
  have hxy : ct.getD i 0 ^^^ 2 ^ j ≠ ct.getD i 0 := xor_pow_ne (ct.getD i 0) j
  have hsum := sum_set_getD ct i (ct.getD i 0 ^^^ 2 ^ j) hi
  rw [hmac_tag, hmac_tag]
  intro heq
  omega

/-- C2: flipping any single bit of the ciphertext or of the authentication
tag of a frame produced by `wrap` makes `unwrap` return the authentication
failure outcome, leaving the replay window untouched and yielding no
decrypted plaintext — the tag is verified against the ciphertext before
any decryption (verify-then-decrypt). -/
theorem c2_tamper (keys : WrapKeys) (opc : Nat) (sess : List Nat) (st : SendState)
    (P : List Nat) (win : ReplayWindow) (i j : Nat)
    (hP : ∀ b ∈ P, b < 256) (h : st.counter < 2 ^ 32) (hi : i < P.length) (hj : j < 8) :
    ∀ f pid st', wrap keys opc sess st P = .ok (f, pid, st') →
      unwrap keys win (flip_ct_bit f i j) = (.authFailed, win) ∧
      unwrap keys win (flip_tag_bit f j) = (.authFailed, win) ∧
      ∀ pt2 pid2, (unwrap keys win (flip_ct_bit f i j)).1 ≠ .ok pt2 pid2 ∧
        (unwrap keys win (flip_tag_bit f j)).1 ≠ .ok pt2 pid2 := by
  intro f pid st' hwr
  simp only [wrap, next_send_id, if_pos h] at hwr
  rw [Except.ok.injEq, Prod.mk.injEq, Prod.mk.injEq] at hwr
  obtain ⟨hf, hpid, hst⟩ := hwr
  subst hpid
  subst hf
  have hctlt : ∀ c ∈ ctr_crypt keys.cipherKey st.counter 0 P, c < 256 :=
    ctr_crypt_bytes_lt keys.cipherKey st.counter 0 P hP
  have hctlen : i < (ctr_crypt keys.cipherKey st.counter 0 P).length := by
    rw [ctr_crypt_length]
    exact hi
  have hct : unwrap keys win
      (flip_ct_bit
        { opcode := opc, session_id := sess, packet_id := st.counter,
          tag := hmac_tag keys.hmacKey (frame_header opc sess st.counter)
            (ctr_crypt keys.cipherKey st.counter 0 P),
          ciphertext := ctr_crypt keys.cipherKey st.counter 0 P } i j) =
      (.authFailed, win) := by
    have hne := hmac_tag_flip_ne keys.hmacKey (frame_header opc sess st.counter)
      (ctr_crypt keys.cipherKey st.counter 0 P) i j hctlt hctlen hj
    rw [unwrap, flip_ct_bit]
    simp only
    rw [if_neg (fun heq => hne heq.symm)]
  have htag : unwrap keys win
      (flip_tag_bit
        { opcode := opc, session_id := sess, packet_id := st.counter,
          tag := hmac_tag keys.hmacKey (frame_header opc sess st.counter)
            (ctr_crypt keys.cipherKey st.counter 0 P),
          ciphertext := ctr_crypt keys.cipherKey st.counter 0 P } j) =
      (.authFailed, win) := by
    rw [unwrap, flip_tag_bit]
    simp only
    have hne := xor_pow_ne (hmac_tag keys.hmacKey (frame_header opc sess st.counter)
      (ctr_crypt keys.cipherKey st.counter 0 P)) j
    rw [if_neg hne]
  refine ⟨hct, htag, fun pt2 pid2 => ⟨?_, ?_⟩⟩
  · rw [hct]
    simp
  · rw [htag]
    simp

/-- Witness for C2: wrapping the 4-byte plaintext `[1,2,3,4]` with keys
(3, 5) yields a concrete frame; flipping bit 3 of ciphertext byte 1 or
bit 3 of the tag makes `unwrap` fail authentication without touching the
replay window. -/
theorem c2_tamper_witness :
    unwrap ⟨3, 5⟩ (ReplayWindow.fresh 16)
        (flip_ct_bit ⟨0, [0, 0, 0, 0, 0, 0, 0, 0], 0, 131, [2, 23, 42, 59]⟩ 1 3) =
      (.authFailed, ReplayWindow.fresh 16) ∧
    unwrap ⟨3, 5⟩ (ReplayWindow.fresh 16)
        (flip_tag_bit ⟨0, [0, 0, 0, 0, 0, 0, 0, 0], 0, 131, [2, 23, 42, 59]⟩ 3) =
      (.authFailed, ReplayWindow.fresh 16) :=
  have happ := c2_tamper ⟨3, 5⟩ 0 [0, 0, 0, 0, 0, 0, 0, 0] SendState.fresh [1, 2, 3, 4]
    (ReplayWindow.fresh 16) 1 3 (by decide) (by decide) (by decide) (by decide)
    ⟨0, [0, 0, 0, 0, 0, 0, 0, 0], 0, 131, [2, 23, 42, 59]⟩ 0 { counter := 1 } rfl
  ⟨happ.1, happ.2.1⟩

/-- C7: loading a syntactically invalid PEM certificate returns
`CertificateParseError` and is atomic on the context state: the context is
returned unchanged, its initialisation state is preserved, and in
particular a context with no prior successful load (a freshly created one)
still reports `tls_ctx_initialised = false`. -/
theorem c7_cert_load_invalid (ctx : TlsRootCtx) (source : List String)
    (x509 : Option (Option Cert)) (hbad : parse_pem_certs source = none) :
    tls_ctx_load_cert_file ctx source x509 =
      (.error .CertificateParseError, ctx, x509) ∧
    tls_ctx_initialised (tls_ctx_load_cert_file ctx source x509).2.1 =
      tls_ctx_initialised ctx ∧
    ∀ b, ctx = tls_ctx_new b →
      tls_ctx_initialised (tls_ctx_load_cert_file ctx source x509).2.1 = false := by
  have h1 : tls_ctx_load_cert_file ctx source x509 =
      (.error .CertificateParseError, ctx, x509) := by
    simp [tls_ctx_load_cert_file, hbad]
  exact ⟨h1, by rw [h1], fun b hb => by rw [h1, hb]; rfl⟩

/-- Witness for C7: loading the invalid PEM source `["garbage"]` into a
fresh server context fails with `CertificateParseError` and the context
still reports uninitialised. -/
theorem c7_cert_load_invalid_witness :
    tls_ctx_load_cert_file (tls_ctx_new true) ["garbage"] none =
      (.error .CertificateParseError, tls_ctx_new true, none) ∧
    tls_ctx_initialised
      (tls_ctx_load_cert_file (tls_ctx_new true) ["garbage"] none).2.1 = false :=
  have h := c7_cert_load_invalid (tls_ctx_new true) ["garbage"] none rfl
  ⟨h.1, h.2.2 true rfl⟩

/-- C8: the private-key loader reports failure through the `LoadError`
taxonomy, not a bare boolean: every failure is a `KeyLoadError` carrying a
sub-case, the wrong-passphrase case is distinguishable as
`passwordPromptNeeded`, and the password callback is consulted lazily,
exactly when the key is encrypted. -/
theorem c8_priv_key_loader (ctx : TlsRootCtx) (src : KeySource) :
    ((tls_ctx_load_priv_file ctx src).2.2 = src.encrypted) ∧
    (src.encrypted = true → src.passwordOk = false →
      (tls_ctx_load_priv_file ctx src).1 = .error (.KeyLoadError .passwordPromptNeeded)) ∧
    (src.encrypted = false → src.wellFormed = false →
      (tls_ctx_load_priv_file ctx src).1 = .error (.KeyLoadError .parseFailure)) ∧
    (∀ e, (tls_ctx_load_priv_file ctx src).1 = .error e →
      ∃ sub, e = .KeyLoadError sub) := by
  refine ⟨?_, ?_, ?_, ?_⟩
  · rcases src with ⟨wf, enc, pw⟩
    cases wf <;> cases enc <;> cases pw <;> simp [tls_ctx_load_priv_file]
  · intro henc hpw
    rcases src with ⟨wf, enc, pw⟩
    cases henc
    cases hpw
    cases wf <;> simp [tls_ctx_load_priv_file]
  · intro henc hwf
    rcases src with ⟨wf, enc, pw⟩
    cases henc
    cases hwf
    cases pw <;> simp [tls_ctx_load_priv_file]
  · intro e he
    rcases src with ⟨wf, enc, pw⟩
    cases wf <;> cases enc <;> cases pw <;>
      simp [tls_ctx_load_priv_file] at he <;> exact ⟨_, he.symm⟩

/-- Witness for C8: an encrypted well-formed key with a wrong passphrase
fails with the password-prompt-needed sub-case of `KeyLoadError`, and the
callback was invoked because the key is encrypted. -/
theorem c8_priv_key_loader_witness :
    (tls_ctx_load_priv_file (tls_ctx_new true) ⟨true, true, false⟩).1 =
      .error (.KeyLoadError .passwordPromptNeeded) ∧
    (tls_ctx_load_priv_file (tls_ctx_new true) ⟨true, true, false⟩).2.2 =
      (⟨true, true, false⟩ : KeySource).encrypted :=
  have h := c8_priv_key_loader (tls_ctx_new true) ⟨true, true, false⟩
  ⟨h.2.1 rfl rfl, h.1⟩

/-- C9: the DH-parameter loader fails with `ParameterLoadError` on
malformed input, surfacing the failure to the caller as its result, and a
silent no-op never occurs: whenever the result is success, valid DH
parameters were parsed and installed in the context. -/
theorem c9_dh_loader (ctx : TlsRootCtx) (source : List String) :
    (parse_pem_dh source = none →
      tls_ctx_load_dh_params ctx source = (.error .ParameterLoadError, ctx)) ∧
    ((tls_ctx_load_dh_params ctx source).1 = .ok () →
      ∃ p, parse_pem_dh source = some p ∧
        (tls_ctx_load_dh_params ctx source).2.dhParams = some p) := by
  rcases hp : parse_pem_dh source with _ | p
  · refine ⟨fun _ => by simp [tls_ctx_load_dh_params, hp], fun hok => ?_⟩
    simp [tls_ctx_load_dh_params, hp] at hok
  · refine ⟨fun hnone => ?_, fun _ => ⟨p, rfl, by simp [tls_ctx_load_dh_params, hp]⟩⟩
    exact Option.noConfusion hnone

/-- Witness for C9: loading the malformed source `["bad"]` fails with
`ParameterLoadError` and leaves the context unchanged. -/
theorem c9_dh_loader_witness :
    tls_ctx_load_dh_params (tls_ctx_new true) ["bad"] =
      (.error .ParameterLoadError, tls_ctx_new true) :=
  (c9_dh_loader (tls_ctx_new true) ["bad"]).1 rfl

/-- C10: the certificate loader's optional out-parameter contract
(`src/ssl_backend.h:183-186`): with a NULL `x509` the chain is installed
and no certificate handle is returned; with a non-NULL `x509` whose
current value is NULL (the documented precondition), the chain is
installed and `*x509` is filled with the loaded leaf certificate. -/
theorem c10_cert_out_param (ctx : TlsRootCtx) (source : List String) (leaf : Cert)
    (rest : List Cert) (hp : parse_pem_certs source = some (leaf :: rest)) :
    tls_ctx_load_cert_file ctx source none =
      (.ok (), { ctx with certChain := leaf :: rest, initialised := true }, none) ∧
    tls_ctx_load_cert_file ctx source (some none) =
      (.ok (), { ctx with certChain := leaf :: rest, initialised := true },
       some (some leaf)) := by
  constructor <;> simp [tls_ctx_load_cert_file, hp]

/-- Witness for C10: loading a concrete one-certificate PEM source with a
NULL out pointer installs the chain and returns no handle; with a non-NULL
pointer holding NULL it additionally returns the leaf certificate. -/
theorem c10_cert_out_param_witness :
    tls_ctx_load_cert_file (tls_ctx_new false)
        ["-----BEGIN CERTIFICATE-----", "MIIB", "-----END CERTIFICATE-----"] none =
      (.ok (), { tls_ctx_new false with certChain := [⟨["MIIB"]⟩], initialised := true },
       none) ∧
    tls_ctx_load_cert_file (tls_ctx_new false)
        ["-----BEGIN CERTIFICATE-----", "MIIB", "-----END CERTIFICATE-----"]
        (some none) =
      (.ok (), { tls_ctx_new false with certChain := [⟨["MIIB"]⟩], initialised := true },
       some (some ⟨["MIIB"]⟩)) :=
  c10_cert_out_param (tls_ctx_new false)
    ["-----BEGIN CERTIFICATE-----", "MIIB", "-----END CERTIFICATE-----"]
    ⟨["MIIB"]⟩ [] (by rfl)
